import Mathlib

/-!
# Verification of the Jira Ticket Rewriter core (`backend/app.py`)

This file shallowly embeds the core logic of the service — the prompt
builder `_create_prompt`, the response parser `_parse_ai_response`, the
fallback generator `_generate_better_fallback_response`, the rewrite
orchestration `rewrite_tickets`, and the rich-document builder used by
`update_tickets` — and proves the specification claims about them.

Python strings are modelled as Lean `String`s, and the Python string
primitives used by the code (`str.strip`, `in` substring test,
`str.replace(x, "")`, `str.split(sep)`, `str.lower`, `re.match(r'^\d+\.')`,
`re.sub(r'^\d+\.\s*', '')`) are modelled as executable functions over the
underlying character lists.  Whitespace is the ASCII whitespace set
`space, \t, \n, \r, \x0b, \x0c` (the inputs exercised here are ASCII, so
this coincides with Python's behaviour), and `str.lower` is modelled with
`Char.toLower` (ASCII lowering).  Dictionaries with optional keys
(`ticket_data.get(key, default)`) are modelled as structures with
`Option` fields.
-/

namespace JiraRewriter

/-! ## Python string primitives -/

/-- ASCII whitespace, as stripped by `str.strip()` and matched by `\s`. -/
def isPyWs (c : Char) : Bool :=
  c = ' ' || c = '\t' || c = '\n' || c = '\r' || c = '\x0b' || c = '\x0c'

/-- `leadMatch pat l` holds when `pat` is an initial segment of `l`. -/
def leadMatch : List Char → List Char → Bool
  | [], _ => true
  | _ :: _, [] => false
  | p :: ps, c :: cs => if p = c then leadMatch ps cs else false

/-- `occursInL needle hay`: Python's substring test `needle in hay`. -/
def occursInL : List Char → List Char → Bool
  | needle, [] => leadMatch needle []
  | needle, c :: cs => leadMatch needle (c :: cs) || occursInL needle cs

/-- Python `hay.replace(pat, "")` for a non-empty `pat`, with a fuel
argument making the recursion structural (the fuel is always instantiated
with the length of the scanned list, which bounds the recursion depth). -/
def dropOccAux (pat : List Char) : Nat → List Char → List Char
  | 0, l => l
  | _ + 1, [] => []
  | fuel + 1, c :: cs =>
    if leadMatch pat (c :: cs) then dropOccAux pat fuel (cs.drop (pat.length - 1))
    else c :: dropOccAux pat fuel cs

/-- Python `hay.replace(pat, "")` for a non-empty `pat`: delete every
left-to-right non-overlapping occurrence of `pat`. -/
def dropOccurrences (pat l : List Char) : List Char := dropOccAux pat l.length l

/-- Python `s.split(sep)` for a non-empty `sep`, accumulator and fuel form
(the fuel is always instantiated with the length of the scanned list). -/
def splitOnSepAux (sep : List Char) : Nat → List Char → List Char → List (List Char)
  | 0, _, acc => [acc.reverse]
  | _ + 1, [], acc => [acc.reverse]
  | fuel + 1, c :: cs, acc =>
    if leadMatch sep (c :: cs) then
      acc.reverse :: splitOnSepAux sep fuel (cs.drop (sep.length - 1)) []
    else splitOnSepAux sep fuel cs (c :: acc)

/-- Python `s.split(sep)`. -/
def splitOnSep (sep l : List Char) : List (List Char) := splitOnSepAux sep l.length l []

/-- `l.dropWhile isPyWs`: Python `str.lstrip()` on the character list. -/
def lstripL (l : List Char) : List Char := l.dropWhile isPyWs

/-- Python `str.rstrip()` on the character list. -/
def rstripL (l : List Char) : List Char := (l.reverse.dropWhile isPyWs).reverse

/-- Python `str.strip()` on the character list. -/
def stripL (l : List Char) : List Char := rstripL (lstripL l)

/-- Python `s.strip()`. -/
def pyStrip (s : String) : String := String.mk (stripL s.data)

/-- Python `needle in hay`. -/
def pyContains (hay needle : String) : Bool := occursInL needle.data hay.data

/-- Python `s.replace(pat, "")` (the only form of `replace` the code uses). -/
def pyRemove (s pat : String) : String := String.mk (dropOccurrences pat.data s.data)

/-- Python `s.split(sep)`. -/
def pySplit (s sep : String) : List String := (splitOnSep sep.data s.data).map String.mk

/-- Python `s.lower()` (ASCII lowering). -/
def pyLower (s : String) : String := String.mk (s.data.map Char.toLower)

/-- After at least one digit was seen: continue `\d*` then require `.`,
for the regex `^\d+\.`. -/
def afterDigits : List Char → Bool
  | [] => false
  | c :: cs => if c.isDigit then afterDigits cs else c = '.'

/-- Python `re.match(r'^\d+\.', line)` converted to a Bool. -/
def matchNumDot : List Char → Bool
  | [] => false
  | c :: cs => c.isDigit && afterDigits cs

/-- After at least one digit was seen: consume `\d*`, then a `.`, returning
the remainder, for the regex `^\d+\.\s*`. -/
def afterDigitsDrop : List Char → Option (List Char)
  | [] => none
  | c :: cs => if c.isDigit then afterDigitsDrop cs else if c = '.' then some cs else none

/-- Python `re.sub(r'^\d+\.\s*', '', s)`: remove a leading digits-dot
prefix together with the whitespace that follows it, if present. -/
def stripLeadingNumber (l : List Char) : List Char :=
  match l with
  | [] => []
  | c :: cs =>
    if c.isDigit then
      match afterDigitsDrop cs with
      | some r => r.dropWhile isPyWs
      | none => l
    else l

/-! ## Data model (`backend/app.py`, Pydantic models and internal dicts) -/

/-- The `ticket_data` dict handed to `_create_prompt` and
`_generate_better_fallback_response`: both keys may be absent. -/
structure TicketData where
  summary : Option String
  description : Option String
deriving DecidableEq

/-- Pydantic `Ticket`. -/
structure Ticket where
  key : String
  summary : String
  description : Option String
deriving DecidableEq

/-- Pydantic `RewrittenTicket`. -/
structure RewrittenTicket where
  key : String
  original_title : String
  rewritten_title : String
  rewritten_description : String
  acceptance_criteria : List String
  technical_context : String
deriving DecidableEq

/-- The dict returned by `_parse_ai_response` and
`_generate_better_fallback_response` (the spec's ParsedResponse). -/
structure ParsedResponse where
  user_story : String
  acceptance_criteria : List String
  technical_context : String
deriving DecidableEq

/-! ## `_create_prompt` (app.py lines 73–111) -/

/-- `_create_prompt`: the fixed f-string template with the two fields
embedded, defaults applying only when the dict key is absent. -/
def _create_prompt (ticket_data : TicketData) : String :=
  "\n    You are an expert in agile development and writing proper user stories. Your task is to rewrite the following Jira ticket as a well-structured user story with acceptance criteria. Focus on translating technical issues into user-centric problems and solutions.\n\n    Ticket Title: "
  ++ ticket_data.summary.getD "No Title"
  ++ "\n    \n    Ticket Description:\n    "
  ++ ticket_data.description.getD "No Description"
  ++ "\n    \n    Analysis Instructions:\n    1. For performance issues (like slow loading, lagging, timeouts):\n       - Identify the specific user impact (frustration, abandoned transactions, etc.)\n       - Specify measurable performance targets (e.g., \"page should load in under 2 seconds\")\n       - Include technical root causes when possible (e.g., \"inefficient database queries\")\n    \n    2. For bug reports:\n       - Clearly describe the expected vs. actual behavior\n       - Specify the conditions under which the bug occurs\n       - Include steps to reproduce when available\n    \n    3. For feature requests:\n       - Focus on the business value and user benefit\n       - Be specific about the success criteria\n    \n    Follow this exact format for your response:\n    \n    USER STORY:\n    As a [specific user role], I want [specific goal related to the issue] so that [clear business benefit].\n    \n    ACCEPTANCE CRITERIA:\n    1. [Specific measurable criterion with clear performance targets]\n    2. [Another specific measurable criterion]\n    3. [Additional criterion addressing edge cases or related functionality]\n    ... (add more as needed)\n    \n    TECHNICAL CONTEXT:\n    [Brief explanation of the technical issue, potential root causes, and why it matters to users and the business]\n    "

/-! ## `_parse_ai_response` (app.py lines 113–170) -/

/-- The `current_section` cursor of the parsing loop. -/
inductive Section
  | userStory
  | acceptanceCriteria
  | technicalContext
deriving DecidableEq

/-- The mutable state of the parsing loop in `_parse_ai_response`. -/
structure ParseState where
  user_story : String
  acceptance_criteria : List String
  technical_context : String
  current_section : Option Section
deriving DecidableEq

/-- Scan the lines of a block: every stripped line matching `^\d+\.` is
appended (stripped) to the criteria sequence. -/
def scanCriteriaLines (text : String) : List String :=
  (pySplit text "\n").filterMap fun ln =>
    let ln := pyStrip ln
    if matchNumDot ln.data then some ln else none

/-- One iteration of the `for section in sections` loop of
`_parse_ai_response`. -/
def processSection (st : ParseState) (sec0 : String) : ParseState :=
  let sec := pyStrip sec0
  if sec = "" then st
  else if pyContains sec "USER STORY:" then
    { st with current_section := some Section.userStory,
              user_story := pyStrip (pyRemove sec "USER STORY:") }
  else if pyContains sec "ACCEPTANCE CRITERIA:" then
    let criteria_text := pyStrip (pyRemove sec "ACCEPTANCE CRITERIA:")
    { st with current_section := some Section.acceptanceCriteria,
              acceptance_criteria := st.acceptance_criteria ++ scanCriteriaLines criteria_text }
  else if pyContains sec "TECHNICAL CONTEXT:" then
    { st with current_section := some Section.technicalContext,
              technical_context := pyStrip (pyRemove sec "TECHNICAL CONTEXT:") }
  else
    match st.current_section with
    | some Section.userStory => { st with user_story := st.user_story ++ " " ++ sec }
    | some Section.acceptanceCriteria =>
      { st with acceptance_criteria := st.acceptance_criteria ++ scanCriteriaLines sec }
    | some Section.technicalContext =>
      { st with technical_context := st.technical_context ++ " " ++ sec }
    | none => st

/-- The state after the section loop of `_parse_ai_response`. -/
def parseState (response_text : String) : ParseState :=
  (pySplit response_text "\n\n").foldl processSection ⟨"", [], "", none⟩

/-- `_parse_ai_response`: section loop followed by the default-substitution
and criteria-formatting post-processing. -/
def _parse_ai_response (response_text : String) : ParsedResponse :=
  let st := parseState response_text
  let acceptance_criteria :=
    if st.acceptance_criteria = [] then ["1. The functionality should work as expected."]
    else st.acceptance_criteria
  let formatted_criteria := acceptance_criteria.filterMap fun criterion =>
    let formatted := String.mk (stripLeadingNumber criterion.data)
    if formatted = "" then none else some formatted
  { user_story :=
      if st.user_story = "" then
        "As a user, I want this issue resolved so that I can work efficiently."
      else st.user_story
  , acceptance_criteria :=
      if formatted_criteria = [] then ["The functionality should work as expected."]
      else formatted_criteria
  , technical_context :=
      if st.technical_context = "" then
        "This ticket addresses a technical issue that impacts user experience."
      else st.technical_context }

/-! ## `_generate_better_fallback_response` (app.py lines 172–202) -/

/-- The fixed performance keyword set. -/
def performance_keywords : List String :=
  ["slow", "lag", "performance", "speed", "loading", "timeout"]

/-- The `is_performance_issue` test: any keyword occurs as a substring of
the lower-cased summary or the lower-cased description. -/
def isPerformanceIssue (ticket_data : TicketData) : Bool :=
  let summary := pyLower (ticket_data.summary.getD "No Title")
  let description := pyLower (ticket_data.description.getD "")
  performance_keywords.any fun keyword =>
    pyContains summary keyword || pyContains description keyword

/-- `_generate_better_fallback_response`. -/
def _generate_better_fallback_response (ticket_data : TicketData) : ParsedResponse :=
  let summary := pyLower (ticket_data.summary.getD "No Title")
  if isPerformanceIssue ticket_data then
    { user_story := "As a user, I want the " ++ summary
        ++ " to respond quickly so that I can complete my tasks efficiently without frustration."
    , acceptance_criteria :=
        [ "Page should load in under 2 seconds on standard connection speeds"
        , "UI interactions (clicks, scrolls, inputs) should respond within 100ms"
        , "All animations should run at 60fps without visual stuttering"
        , "Performance should be consistent across supported browsers and devices" ]
    , technical_context := "The " ++ summary
        ++ " is experiencing performance issues that negatively impact user experience. This could be due to inefficient code, excessive network requests, unoptimized assets, or server-side bottlenecks. Fixing this will improve user satisfaction and potentially increase conversion rates." }
  else
    { user_story := "As a user, I want to " ++ summary
        ++ " so that I can achieve my goals efficiently."
    , acceptance_criteria :=
        [ "The functionality should work as expected in all supported browsers"
        , "The implementation should meet all business requirements"
        , "The solution should be thoroughly tested with automated tests"
        , "The solution should maintain or improve current performance metrics" ]
    , technical_context := "This ticket addresses a technical issue that impacts user experience and business goals. Proper implementation will ensure system reliability and user satisfaction." }

/-! ## `rewrite_tickets` (app.py lines 259–357) -/

/-- Outcome of `model.generate_content(prompt)` for one ticket: the call
raises, the response has no `text` attribute, or it returns text (which
may be empty — `if not response.text` also selects the fallback). -/
inductive ModelOutcome
  | raises
  | noText
  | text (t : String)
deriving DecidableEq

/-- Whether the outcome is classified as a failure by `rewrite_tickets`
(exception, missing text, or empty text). -/
def modelFailed : ModelOutcome → Bool
  | ModelOutcome.raises => true
  | ModelOutcome.noText => true
  | ModelOutcome.text t => t = ""

/-- The `ticket_data` dict `rewrite_tickets` passes to `_create_prompt`
and `_generate_better_fallback_response`: both keys always present,
`description` defaulted to `""` by `ticket.description or ""`. -/
def ticketDataOf (ticket : Ticket) : TicketData :=
  ⟨some ticket.summary, some (ticket.description.getD "")⟩

/-- The prompt built in step 1 of the orchestration (app.py lines 266–269). -/
def promptInOrchestration (ticket : Ticket) : String :=
  _create_prompt (ticketDataOf ticket)

/-- The renumbering step (app.py lines 300–305 and 336–340): strip any
leading digits-dot prefix, then prefix the 1-based index and `. `. -/
def renumber (criteria : List String) : List String :=
  criteria.enum.map fun p =>
    Nat.repr (p.1 + 1) ++ ". " ++ String.mk (stripLeadingNumber p.2.data)

/-- The ParsedResponse the orchestration ends up with for one ticket:
fallback on failure, parser output otherwise. -/
def parsedFor (ticket : Ticket) (outcome : ModelOutcome) : ParsedResponse :=
  match outcome with
  | ModelOutcome.raises => _generate_better_fallback_response (ticketDataOf ticket)
  | ModelOutcome.noText => _generate_better_fallback_response (ticketDataOf ticket)
  | ModelOutcome.text t =>
    if t = "" then _generate_better_fallback_response (ticketDataOf ticket)
    else _parse_ai_response t

/-- Assembly of the emitted record (app.py lines 300–317 / 336–349). -/
def composeTicket (ticket : Ticket) (parsed : ParsedResponse) : RewrittenTicket :=
  { key := ticket.key
  , original_title := ticket.summary
  , rewritten_title := parsed.user_story
  , rewritten_description := parsed.user_story ++ "\n\n" ++ parsed.technical_context
  , acceptance_criteria := renumber parsed.acceptance_criteria
  , technical_context := parsed.technical_context }

/-- Processing of one ticket by the loop of `rewrite_tickets`. -/
def rewriteOne (ticket : Ticket) (outcome : ModelOutcome) : RewrittenTicket :=
  composeTicket ticket (parsedFor ticket outcome)

/-- `rewrite_tickets`: each ticket is processed independently with its
model outcome; an empty result list raises HTTP 500 (modelled as
`Except.error`). -/
def rewrite_tickets (inputs : List (Ticket × ModelOutcome)) :
    Except String (List RewrittenTicket) :=
  if (inputs.map fun p => rewriteOne p.1 p.2).isEmpty then
    Except.error "Failed to generate any user stories"
  else Except.ok (inputs.map fun p => rewriteOne p.1 p.2)

/-! ## The rich-document builder of `update_tickets` (app.py lines 376–417) -/

/-- One top-level block of the Atlassian Document Format body built by
`update_tickets`: `paragraph t` stands for
`{"type": "paragraph", "content": [{"type": "text", "text": t}]}`,
`heading lvl t` for the heading block with `attrs.level = lvl`, and
`bulletList items` for the `bulletList` whose `listItem`s each wrap one
paragraph holding the item's text. -/
inductive ADFBlock
  | paragraph (text : String)
  | heading (level : Nat) (text : String)
  | bulletList (items : List String)
deriving DecidableEq

/-- The non-empty stripped paragraphs of a description, in order
(app.py lines 379–388). -/
def nonEmptyParas (description : String) : List String :=
  (pySplit description "\n\n").filterMap fun para =>
    if pyStrip para = "" then none else some (pyStrip para)

/-- The `adf_content` list built for one ticket by `update_tickets`:
paragraph blocks, then the "Acceptance Criteria" heading, then one
bulleted list with one item per criterion, inserted as-is. -/
def buildADFContent (ticket : RewrittenTicket) : List ADFBlock :=
  ((nonEmptyParas ticket.rewritten_description).map ADFBlock.paragraph)
  ++ [ADFBlock.heading 2 "Acceptance Criteria"]
  ++ [ADFBlock.bulletList ticket.acceptance_criteria]

/-! ## Helper lemmas about the string primitives -/

/-- `leadMatch` characterises list prefixes. -/
theorem leadMatch_iff (p l : List Char) : leadMatch p l = true ↔ ∃ r, l = p ++ r := by
  induction p generalizing l with
  | nil => simp [leadMatch]
  | cons a as ih =>
    cases l with
    | nil => simp [leadMatch]
    | cons c cs =>
      simp only [leadMatch]
      constructor
      · intro h
        have hac : a = c := by by_contra hne; simp [hne] at h
        subst hac
        simp only [if_pos rfl] at h
        obtain ⟨r, hr⟩ := (ih cs).mp h
        exact ⟨r, by simp [hr]⟩
      · rintro ⟨r, hr⟩
        injection hr with h1 h2
        subst h1
        simp only [if_pos rfl]
        exact (ih cs).mpr ⟨r, h2⟩

/-- `occursInL` characterises list infixes. -/
theorem occursInL_iff (needle hay : List Char) :
    occursInL needle hay = true ↔ ∃ pre post, hay = pre ++ needle ++ post := by
  induction hay with
  | nil =>
    simp only [occursInL, leadMatch_iff]
    constructor
    · rintro ⟨r, hr⟩
      have h2 := List.append_eq_nil.mp hr.symm
      exact ⟨[], [], by simp [h2.1, h2.2]⟩
    · rintro ⟨pre, post, h⟩
      have h2 := List.append_eq_nil.mp h.symm
      have h3 := List.append_eq_nil.mp h2.1
      exact ⟨[], by simp [h3.2]⟩
  | cons c cs ih =>
    simp only [occursInL, Bool.or_eq_true, leadMatch_iff, ih]
    constructor
    · rintro (⟨r, hr⟩ | ⟨pre, post, h⟩)
      · exact ⟨[], r, by simpa using hr⟩
      · exact ⟨c :: pre, post, by simp [h]⟩
    · rintro ⟨pre, post, h⟩
      cases pre with
      | nil => exact Or.inl ⟨post, by simpa using h⟩
      | cons a pre' =>
        simp only [List.cons_append] at h
        injection h with h1 h2
        exact Or.inr ⟨pre', post, h2⟩

/-- Python `needle in hay` is the existence of a decomposition
`hay = pre ++ needle ++ post`. -/
theorem pyContains_iff (hay needle : String) :
    pyContains hay needle = true ↔ ∃ pre post : String, hay = pre ++ needle ++ post := by
  unfold pyContains
  rw [occursInL_iff]
  constructor
  · rintro ⟨pre, post, h⟩
    refine ⟨String.mk pre, String.mk post, String.ext ?_⟩
    simpa [String.data_append] using h
  · rintro ⟨pre, post, h⟩
    exact ⟨pre.data, post.data, by simpa [String.data_append] using congrArg String.data h⟩

/-! ## Helper lemmas about the orchestration -/

/-- A ticket classified as failed (exception, missing or empty text) is
produced from the fallback generator. -/
theorem rewriteOne_failed (t : Ticket) (o : ModelOutcome) (h : modelFailed o = true) :
    rewriteOne t o = composeTicket t (_generate_better_fallback_response (ticketDataOf t)) := by
  cases o with
  | raises => rfl
  | noText => rfl
  | text s =>
    have hs : s = "" := by simpa [modelFailed] using h
    subst hs
    rfl

/-- A successful `rewrite_tickets` result is the per-ticket map. -/
theorem rewrite_tickets_ok (inputs : List (Ticket × ModelOutcome))
    (out : List RewrittenTicket) (h : rewrite_tickets inputs = Except.ok out) :
    out = inputs.map fun p => rewriteOne p.1 p.2 := by
  unfold rewrite_tickets at h
  split at h
  · cases h
  · exact (Except.ok.inj h).symm

/-- `rewrite_tickets` succeeds on every non-empty batch. -/
theorem rewrite_tickets_ok_of_ne (inputs : List (Ticket × ModelOutcome))
    (h : inputs ≠ []) :
    rewrite_tickets inputs = Except.ok (inputs.map fun p => rewriteOne p.1 p.2) := by
  unfold rewrite_tickets
  rw [if_neg (by simp only [List.isEmpty_iff, List.map_eq_nil_iff]; exact h)]

/-- The parser always returns a non-empty criteria list. -/
theorem parse_criteria_ne_nil (s : String) :
    (_parse_ai_response s).acceptance_criteria ≠ [] := by
  unfold _parse_ai_response
  dsimp only
  split
  · decide
  · split
    · simp
    · assumption

/-- The fallback generator always returns a non-empty criteria list. -/
theorem fallback_criteria_ne_nil (td : TicketData) :
    (_generate_better_fallback_response td).acceptance_criteria ≠ [] := by
  unfold _generate_better_fallback_response
  dsimp only
  split <;> simp

/-- Whatever the model outcome, the ParsedResponse used by the
orchestration has a non-empty criteria list. -/
theorem parsed_criteria_ne_nil (t : Ticket) (o : ModelOutcome) :
    (parsedFor t o).acceptance_criteria ≠ [] := by
  cases o with
  | raises => exact fallback_criteria_ne_nil _
  | noText => exact fallback_criteria_ne_nil _
  | text s =>
    dsimp only [parsedFor]
    split
    · exact fallback_criteria_ne_nil _
    · exact parse_criteria_ne_nil _

/-- Renumbering preserves length. -/
theorem renumber_length (cs : List String) : (renumber cs).length = cs.length := by
  simp [renumber]

/-- The `i`-th renumbered criterion is the 1-based index, a period and a
space, then the stripped original criterion. -/
theorem renumber_get (cs : List String) (i : Nat) (hi : i < (renumber cs).length)
    (hi' : i < cs.length) :
    (renumber cs).get ⟨i, hi⟩ =
      Nat.repr (i + 1) ++ ". " ++ String.mk (stripLeadingNumber (cs.get ⟨i, hi'⟩).data) := by
  simp [renumber, List.get_eq_getElem, List.getElem_map, List.getElem_enum]

/-! ## Claim theorems -/

/-- Claim C4: the Fallback Generator lower-cases summary and description and
tests the fixed keyword set `{slow, lag, performance, speed, loading,
timeout}` for substring membership in either field; on a hit it returns the
performance record, whose `technical_context` contains the substring
`"performance issues"` and whose `acceptance_criteria` are the four fixed
entries with numeric targets; otherwise it returns the record with exactly
the four fixed generic acceptance criteria. -/
theorem fallback_branch_spec (td : TicketData) :
    (isPerformanceIssue td = true →
      (_generate_better_fallback_response td).acceptance_criteria =
        [ "Page should load in under 2 seconds on standard connection speeds"
        , "UI interactions (clicks, scrolls, inputs) should respond within 100ms"
        , "All animations should run at 60fps without visual stuttering"
        , "Performance should be consistent across supported browsers and devices" ] ∧
      ∃ pre post : String,
        (_generate_better_fallback_response td).technical_context =
          pre ++ "performance issues" ++ post) ∧
    (isPerformanceIssue td = false →
      (_generate_better_fallback_response td).acceptance_criteria =
        [ "The functionality should work as expected in all supported browsers"
        , "The implementation should meet all business requirements"
        , "The solution should be thoroughly tested with automated tests"
        , "The solution should maintain or improve current performance metrics" ]) := by
  constructor
  · intro h
    unfold _generate_better_fallback_response
    dsimp only
    rw [if_pos h]
    dsimp only
    refine ⟨rfl, "The " ++ pyLower (td.summary.getD "No Title") ++ " is experiencing ",
      " that negatively impact user experience. This could be due to inefficient code, excessive network requests, unoptimized assets, or server-side bottlenecks. Fixing this will improve user satisfaction and potentially increase conversion rates.", ?_⟩
    rw [String.append_assoc ("The " ++ pyLower (td.summary.getD "No Title")) " is experiencing "
        "performance issues",
      String.append_assoc ("The " ++ pyLower (td.summary.getD "No Title"))]
    rfl
  · intro h
    unfold _generate_better_fallback_response
    dsimp only
    rw [if_neg (by simp [h])]

/-- Witness for C4 at the spec's own example inputs. -/
theorem fallback_branch_spec_witness :
    isPerformanceIssue ⟨some "Checkout page is very slow", some ""⟩ = true ∧
    isPerformanceIssue ⟨some "Add dark mode", some ""⟩ = false ∧
    (∃ pre post : String,
      (_generate_better_fallback_response ⟨some "Checkout page is very slow", some ""⟩).technical_context =
        pre ++ "performance issues" ++ post) ∧
    (_generate_better_fallback_response ⟨some "Add dark mode", some ""⟩).acceptance_criteria =
      [ "The functionality should work as expected in all supported browsers"
      , "The implementation should meet all business requirements"
      , "The solution should be thoroughly tested with automated tests"
      , "The solution should maintain or improve current performance metrics" ] :=
  ⟨by decide, by decide,
    ((fallback_branch_spec ⟨some "Checkout page is very slow", some ""⟩).1 (by decide)).2,
    (fallback_branch_spec ⟨some "Add dark mode", some ""⟩).2 (by decide)⟩

/-- Claim C8: the renumbering step of the orchestration is idempotent on the
Fallback Generator's acceptance-criteria output: applying it twice yields
the same list of strings as applying it once. -/
theorem renumber_idempotent_on_fallback (td : TicketData) :
    renumber (renumber (_generate_better_fallback_response td).acceptance_criteria) =
      renumber (_generate_better_fallback_response td).acceptance_criteria := by
  unfold _generate_better_fallback_response
  dsimp only
  split <;> rfl

set_option maxRecDepth 100000 in
/-- Claim C9 counterexample: for the ticket `⟨"K-1", "Add dark mode", none⟩`,
whose description is absent, the prompt built by the orchestration does NOT
embed the default string `"No Description"` anywhere — `rewrite_tickets`
passes `ticket.description or ""`, so the `_create_prompt` default never
fires. -/
theorem prompt_orchestration_no_default_cex :
    (⟨"K-1", "Add dark mode", none⟩ : Ticket).description = none ∧
    ¬ ∃ pre post : String,
      promptInOrchestration ⟨"K-1", "Add dark mode", none⟩ =
        pre ++ "No Description" ++ post := by
  refine ⟨rfl, fun h => ?_⟩
  have h2 : pyContains (promptInOrchestration ⟨"K-1", "Add dark mode", none⟩)
      "No Description" = true := (pyContains_iff _ _).mpr h
  have h3 : pyContains (promptInOrchestration ⟨"K-1", "Add dark mode", none⟩)
      "No Description" = false := by decide
  rw [h3] at h2
  cases h2

/-- Claim C9 amended: when a ticket's description is absent the
orchestration passes the empty string, so the prompt it builds is
`_create_prompt` applied to `{summary, ""}` — not to a missing key; the
`"No Description"` default is embedded only when `_create_prompt` itself
receives an input whose description key is absent. -/
theorem prompt_orchestration_empty_description (t : Ticket)
    (h : t.description = none) :
    promptInOrchestration t = _create_prompt ⟨some t.summary, some ""⟩ ∧
    ∃ pre post : String,
      _create_prompt ⟨some t.summary, none⟩ = pre ++ "No Description" ++ post := by
  constructor
  · unfold promptInOrchestration ticketDataOf
    rw [h]
    rfl
  · exact ⟨"\n    You are an expert in agile development and writing proper user stories. Your task is to rewrite the following Jira ticket as a well-structured user story with acceptance criteria. Focus on translating technical issues into user-centric problems and solutions.\n\n    Ticket Title: "
      ++ t.summary ++ "\n    \n    Ticket Description:\n    ",
      "\n    \n    Analysis Instructions:\n    1. For performance issues (like slow loading, lagging, timeouts):\n       - Identify the specific user impact (frustration, abandoned transactions, etc.)\n       - Specify measurable performance targets (e.g., \"page should load in under 2 seconds\")\n       - Include technical root causes when possible (e.g., \"inefficient database queries\")\n    \n    2. For bug reports:\n       - Clearly describe the expected vs. actual behavior\n       - Specify the conditions under which the bug occurs\n       - Include steps to reproduce when available\n    \n    3. For feature requests:\n       - Focus on the business value and user benefit\n       - Be specific about the success criteria\n    \n    Follow this exact format for your response:\n    \n    USER STORY:\n    As a [specific user role], I want [specific goal related to the issue] so that [clear business benefit].\n    \n    ACCEPTANCE CRITERIA:\n    1. [Specific measurable criterion with clear performance targets]\n    2. [Another specific measurable criterion]\n    3. [Additional criterion addressing edge cases or related functionality]\n    ... (add more as needed)\n    \n    TECHNICAL CONTEXT:\n    [Brief explanation of the technical issue, potential root causes, and why it matters to users and the business]\n    ",
      rfl⟩

/-- Witness for the amended C9 at a concrete ticket without description. -/
theorem prompt_orchestration_empty_description_witness :
    (⟨"K-1", "Add dark mode", none⟩ : Ticket).description = none ∧
    promptInOrchestration ⟨"K-1", "Add dark mode", none⟩ =
      _create_prompt ⟨some "Add dark mode", some ""⟩ ∧
    ∃ pre post : String,
      _create_prompt ⟨some "Add dark mode", none⟩ = pre ++ "No Description" ++ post :=
  ⟨rfl, (prompt_orchestration_empty_description ⟨"K-1", "Add dark mode", none⟩ rfl).1,
    (prompt_orchestration_empty_description ⟨"K-1", "Add dark mode", none⟩ rfl).2⟩

/-- Claim C10 counterexample: for summary `"Add Dark Mode"` (which contains
upper-case letters) the Fallback Generator's `technical_context` does not
contain the lower-cased summary at all — in the generic branch the
technical context is a fixed string. -/
theorem fallback_lowercase_cex :
    ¬ ∃ pre post : String,
      (_generate_better_fallback_response ⟨some "Add Dark Mode", some ""⟩).technical_context =
        pre ++ pyLower "Add Dark Mode" ++ post := by
  intro h
  have h2 : pyContains
      (_generate_better_fallback_response ⟨some "Add Dark Mode", some ""⟩).technical_context
      (pyLower "Add Dark Mode") = true := (pyContains_iff _ _).mpr h
  have h3 : pyContains
      (_generate_better_fallback_response ⟨some "Add Dark Mode", some ""⟩).technical_context
      (pyLower "Add Dark Mode") = false := by decide
  rw [h3] at h2
  cases h2

/-- Claim C10 amended: the Fallback Generator always embeds the lower-cased
summary into the `user_story` it returns, and embeds it into
`technical_context` exactly on the performance branch (the generic branch's
technical context is a fixed string); the original-cased summary may still
occur in the emitted text only coincidentally. -/
theorem fallback_embeds_lowered_summary (td : TicketData) :
    (∃ pre post : String,
      (_generate_better_fallback_response td).user_story =
        pre ++ pyLower (td.summary.getD "No Title") ++ post) ∧
    (isPerformanceIssue td = true →
      ∃ pre post : String,
        (_generate_better_fallback_response td).technical_context =
          pre ++ pyLower (td.summary.getD "No Title") ++ post) := by
  constructor
  · unfold _generate_better_fallback_response
    dsimp only
    split
    · exact ⟨"As a user, I want the ",
        " to respond quickly so that I can complete my tasks efficiently without frustration.", rfl⟩
    · exact ⟨"As a user, I want to ", " so that I can achieve my goals efficiently.", rfl⟩
  · intro h
    unfold _generate_better_fallback_response
    dsimp only
    rw [if_pos h]
    exact ⟨"The ",
      " is experiencing performance issues that negatively impact user experience. This could be due to inefficient code, excessive network requests, unoptimized assets, or server-side bottlenecks. Fixing this will improve user satisfaction and potentially increase conversion rates.", rfl⟩

/-- Witness for the amended C10 on the performance branch. -/
theorem fallback_embeds_lowered_summary_witness :
    isPerformanceIssue ⟨some "Checkout page is very slow", some ""⟩ = true ∧
    (∃ pre post : String,
      (_generate_better_fallback_response ⟨some "Checkout page is very slow", some ""⟩).user_story =
        pre ++ pyLower "Checkout page is very slow" ++ post) ∧
    (∃ pre post : String,
      (_generate_better_fallback_response ⟨some "Checkout page is very slow", some ""⟩).technical_context =
        pre ++ pyLower "Checkout page is very slow" ++ post) :=
  ⟨by decide, (fallback_embeds_lowered_summary ⟨some "Checkout page is very slow", some ""⟩).1,
    (fallback_embeds_lowered_summary ⟨some "Checkout page is very slow", some ""⟩).2 (by decide)⟩

/-- Claim C3: a ticket whose model invocation raises, returns no text or
returns empty text is produced from the Fallback Generator applied to that
ticket's summary and description; the failure is not surfaced as an error,
all tickets are still processed, and the output order matches the input
order (the output is the index-wise image of the input). -/
theorem rewrite_failure_isolated (inputs : List (Ticket × ModelOutcome)) (i : Nat)
    (hi : i < inputs.length)
    (hfail : modelFailed (inputs.get ⟨i, hi⟩).2 = true) :
    ∃ out, rewrite_tickets inputs = Except.ok out ∧
      out.length = inputs.length ∧
      (∀ j : Nat, out[j]? = (inputs[j]?).map fun p => rewriteOne p.1 p.2) ∧
      out[i]? = some (composeTicket (inputs.get ⟨i, hi⟩).1
        (_generate_better_fallback_response (ticketDataOf (inputs.get ⟨i, hi⟩).1))) := by
  have hne : inputs ≠ [] := by
    intro h0
    rw [h0] at hi
    simp at hi
  refine ⟨inputs.map fun p => rewriteOne p.1 p.2, rewrite_tickets_ok_of_ne inputs hne,
    by simp, fun j => List.getElem?_map _ inputs j, ?_⟩
  rw [List.getElem?_map, List.getElem?_eq_getElem hi]
  simp only [Option.map_some, List.get_eq_getElem] at hfail ⊢
  exact congrArg some (rewriteOne_failed _ _ hfail)

/-- Witness for C3: a one-ticket batch whose model returns empty text. -/
theorem rewrite_failure_isolated_witness :
    modelFailed (([((⟨"K-1", "Add dark mode", none⟩ : Ticket), ModelOutcome.text "")].get
      ⟨0, by decide⟩).2) = true ∧
    ∃ out, rewrite_tickets [((⟨"K-1", "Add dark mode", none⟩ : Ticket), ModelOutcome.text "")] =
        Except.ok out ∧
      out.length = [((⟨"K-1", "Add dark mode", none⟩ : Ticket), ModelOutcome.text "")].length ∧
      (∀ j : Nat, out[j]? =
        ([((⟨"K-1", "Add dark mode", none⟩ : Ticket), ModelOutcome.text "")][j]?).map fun p =>
          rewriteOne p.1 p.2) ∧
      out[0]? = some (composeTicket
        (([((⟨"K-1", "Add dark mode", none⟩ : Ticket), ModelOutcome.text "")].get ⟨0, by decide⟩).1)
        (_generate_better_fallback_response (ticketDataOf
          (([((⟨"K-1", "Add dark mode", none⟩ : Ticket), ModelOutcome.text "")].get
            ⟨0, by decide⟩).1)))) :=
  ⟨by decide, rewrite_failure_isolated
    [((⟨"K-1", "Add dark mode", none⟩ : Ticket), ModelOutcome.text "")] 0 (by decide) (by decide)⟩

/-- Claim C6: every emitted RewrittenTicket has `original_title` equal to
the input ticket's summary, `rewritten_title` equal to the ParsedResponse's
user story, and `rewritten_description` equal to the user story, a literal
blank line, then the technical context. -/
theorem rewrite_compose_fields (inputs : List (Ticket × ModelOutcome))
    (out : List RewrittenTicket) (hok : rewrite_tickets inputs = Except.ok out) :
    ∀ rt ∈ out, ∃ t o, (t, o) ∈ inputs ∧
      rt.original_title = t.summary ∧
      rt.rewritten_title = (parsedFor t o).user_story ∧
      rt.rewritten_description =
        (parsedFor t o).user_story ++ "\n\n" ++ (parsedFor t o).technical_context := by
  intro rt hrt
  rw [rewrite_tickets_ok inputs out hok] at hrt
  obtain ⟨p, hp, heq⟩ := List.mem_map.mp hrt
  subst heq
  exact ⟨p.1, p.2, by simpa [Prod.mk.eta] using hp, rfl, rfl, rfl⟩

/-- Witness for C6 on a concrete one-ticket batch. -/
theorem rewrite_compose_fields_witness :
    rewrite_tickets [(⟨"K-1", "Add dark mode", none⟩, ModelOutcome.raises)] =
      Except.ok [rewriteOne ⟨"K-1", "Add dark mode", none⟩ ModelOutcome.raises] ∧
    rewriteOne ⟨"K-1", "Add dark mode", none⟩ ModelOutcome.raises ∈
      [rewriteOne ⟨"K-1", "Add dark mode", none⟩ ModelOutcome.raises] ∧
    ∃ t o, (t, o) ∈ [((⟨"K-1", "Add dark mode", none⟩ : Ticket), ModelOutcome.raises)] ∧
      (rewriteOne ⟨"K-1", "Add dark mode", none⟩ ModelOutcome.raises).original_title = t.summary ∧
      (rewriteOne ⟨"K-1", "Add dark mode", none⟩ ModelOutcome.raises).rewritten_title =
        (parsedFor t o).user_story ∧
      (rewriteOne ⟨"K-1", "Add dark mode", none⟩ ModelOutcome.raises).rewritten_description =
        (parsedFor t o).user_story ++ "\n\n" ++ (parsedFor t o).technical_context :=
  ⟨rfl, List.mem_singleton_self _,
    rewrite_compose_fields [((⟨"K-1", "Add dark mode", none⟩ : Ticket), ModelOutcome.raises)]
      [rewriteOne ⟨"K-1", "Add dark mode", none⟩ ModelOutcome.raises] rfl _
      (List.mem_singleton_self _)⟩

/-- Claim C1: every RewrittenTicket returned by the orchestration has a
non-empty acceptance-criteria list, and its element at 0-based position `i`
is exactly the 1-based index `i+1`, a period and a space, followed by some
criterion text with any pre-existing leading digits-dot prefix stripped —
so indices run 1..N strictly increasing with no gaps. -/
theorem rewrite_criteria_numbered (inputs : List (Ticket × ModelOutcome))
    (out : List RewrittenTicket) (hok : rewrite_tickets inputs = Except.ok out) :
    ∀ rt ∈ out, rt.acceptance_criteria ≠ [] ∧
      ∀ i (hi : i < rt.acceptance_criteria.length), ∃ c : String,
        rt.acceptance_criteria.get ⟨i, hi⟩ =
          Nat.repr (i + 1) ++ ". " ++ String.mk (stripLeadingNumber c.data) := by
  intro rt hrt
  rw [rewrite_tickets_ok inputs out hok] at hrt
  obtain ⟨p, hp, heq⟩ := List.mem_map.mp hrt
  subst heq
  constructor
  · intro hnil
    exact parsed_criteria_ne_nil p.1 p.2
      (List.length_eq_zero.mp
        (by simpa [rewriteOne, composeTicket, renumber_length] using congrArg List.length hnil))
  · intro i hi
    have hi' : i < (parsedFor p.1 p.2).acceptance_criteria.length := by
      simpa [rewriteOne, composeTicket, renumber_length] using hi
    exact ⟨(parsedFor p.1 p.2).acceptance_criteria.get ⟨i, hi'⟩, renumber_get _ i hi hi'⟩

/-- Witness for C1: the first criterion of a fallback-produced ticket. -/
theorem rewrite_criteria_numbered_witness :
    rewrite_tickets [(⟨"K-1", "Add dark mode", none⟩, ModelOutcome.raises)] =
      Except.ok [rewriteOne ⟨"K-1", "Add dark mode", none⟩ ModelOutcome.raises] ∧
    rewriteOne ⟨"K-1", "Add dark mode", none⟩ ModelOutcome.raises ∈
      [rewriteOne ⟨"K-1", "Add dark mode", none⟩ ModelOutcome.raises] ∧
    (rewriteOne ⟨"K-1", "Add dark mode", none⟩ ModelOutcome.raises).acceptance_criteria ≠ [] ∧
    ∃ c : String,
      (rewriteOne ⟨"K-1", "Add dark mode", none⟩ ModelOutcome.raises).acceptance_criteria.get
          ⟨0, by decide⟩ =
        Nat.repr (0 + 1) ++ ". " ++ String.mk (stripLeadingNumber c.data) :=
  ⟨rfl, List.mem_singleton_self _,
    (rewrite_criteria_numbered [((⟨"K-1", "Add dark mode", none⟩ : Ticket), ModelOutcome.raises)]
      [rewriteOne ⟨"K-1", "Add dark mode", none⟩ ModelOutcome.raises] rfl _
      (List.mem_singleton_self _)).1,
    (rewrite_criteria_numbered [((⟨"K-1", "Add dark mode", none⟩ : Ticket), ModelOutcome.raises)]
      [rewriteOne ⟨"K-1", "Add dark mode", none⟩ ModelOutcome.raises] rfl _
      (List.mem_singleton_self _)).2 0 (by decide)⟩

/-- Claim C2: the Response Parser is total and fully populated: the result
fields are all non-empty, and each default substitution fires exactly when
the corresponding captured value is empty — an empty captured criteria list
yields the single default criterion with its number stripped, an empty
captured user story yields the default first-person sentence, and an empty
captured technical context yields the default explanatory sentence. -/
theorem parse_never_fails (t : String) :
    (_parse_ai_response t).user_story ≠ "" ∧
    (_parse_ai_response t).acceptance_criteria ≠ [] ∧
    (_parse_ai_response t).technical_context ≠ "" ∧
    ((parseState t).acceptance_criteria = [] →
      (_parse_ai_response t).acceptance_criteria =
        ["The functionality should work as expected."]) ∧
    ((parseState t).user_story = "" →
      (_parse_ai_response t).user_story =
        "As a user, I want this issue resolved so that I can work efficiently.") ∧
    ((parseState t).technical_context = "" →
      (_parse_ai_response t).technical_context =
        "This ticket addresses a technical issue that impacts user experience.") := by
  refine ⟨?_, parse_criteria_ne_nil t, ?_, ?_, ?_, ?_⟩
  · unfold _parse_ai_response
    dsimp only
    split
    · decide
    · assumption
  · unfold _parse_ai_response
    dsimp only
    split
    · decide
    · assumption
  · intro h
    unfold _parse_ai_response
    dsimp only
    rw [if_pos h]
    decide
  · intro h
    unfold _parse_ai_response
    dsimp only
    rw [if_pos h]
  · intro h
    unfold _parse_ai_response
    dsimp only
    rw [if_pos h]

/-- Witness for C2 at the empty model output, where all three defaults fire. -/
theorem parse_never_fails_witness :
    (parseState "").acceptance_criteria = [] ∧
    (parseState "").user_story = "" ∧
    (parseState "").technical_context = "" ∧
    (_parse_ai_response "").acceptance_criteria =
      ["The functionality should work as expected."] ∧
    (_parse_ai_response "").user_story =
      "As a user, I want this issue resolved so that I can work efficiently." ∧
    (_parse_ai_response "").technical_context =
      "This ticket addresses a technical issue that impacts user experience." :=
  ⟨by decide, by decide, by decide,
    (parse_never_fails "").2.2.2.1 (by decide),
    (parse_never_fails "").2.2.2.2.1 (by decide),
    (parse_never_fails "").2.2.2.2.2 (by decide)⟩

/-- Claim C7: the rich document built by Tracker Sync is, in order, one
paragraph block per non-empty blank-line-separated paragraph of the
rewritten description, then one "Acceptance Criteria" heading block, then
one bulleted-list block with one item per criterion inserted as-is; with a
2-paragraph description and 3 criteria this is exactly 2 paragraph blocks,
1 heading block, and 1 bulleted-list block with exactly 3 items. -/
theorem update_adf_structure (rt : RewrittenTicket) (p1 p2 c1 c2 c3 : String)
    (hp : nonEmptyParas rt.rewritten_description = [p1, p2])
    (hc : rt.acceptance_criteria = [c1, c2, c3]) :
    buildADFContent rt =
      [ADFBlock.paragraph p1, ADFBlock.paragraph p2,
        ADFBlock.heading 2 "Acceptance Criteria", ADFBlock.bulletList [c1, c2, c3]] ∧
    (buildADFContent rt).countP
      (fun b => match b with | ADFBlock.paragraph _ => true | _ => false) = 2 ∧
    (buildADFContent rt).countP
      (fun b => match b with | ADFBlock.heading _ _ => true | _ => false) = 1 ∧
    (buildADFContent rt).countP
      (fun b => match b with | ADFBlock.bulletList _ => true | _ => false) = 1 ∧
    ∃ items, ADFBlock.bulletList items ∈ buildADFContent rt ∧ items.length = 3 := by
  have h1 : buildADFContent rt =
      [ADFBlock.paragraph p1, ADFBlock.paragraph p2,
        ADFBlock.heading 2 "Acceptance Criteria", ADFBlock.bulletList [c1, c2, c3]] := by
    unfold buildADFContent
    rw [hp, hc]
    rfl
  refine ⟨h1, ?_, ?_, ?_, [c1, c2, c3], ?_, rfl⟩
  · rw [h1]; rfl
  · rw [h1]; rfl
  · rw [h1]; rfl
  · rw [h1]; simp

/-- Witness for C7 on a concrete two-paragraph, three-criteria ticket. -/
theorem update_adf_structure_witness :
    nonEmptyParas (⟨"K-1", "orig", "rew",
        "First paragraph.\n\nSecond paragraph.",
        ["1. a", "2. b", "3. c"], "ctx"⟩ : RewrittenTicket).rewritten_description =
      ["First paragraph.", "Second paragraph."] ∧
    (⟨"K-1", "orig", "rew", "First paragraph.\n\nSecond paragraph.",
        ["1. a", "2. b", "3. c"], "ctx"⟩ : RewrittenTicket).acceptance_criteria =
      ["1. a", "2. b", "3. c"] ∧
    buildADFContent (⟨"K-1", "orig", "rew", "First paragraph.\n\nSecond paragraph.",
        ["1. a", "2. b", "3. c"], "ctx"⟩ : RewrittenTicket) =
      [ADFBlock.paragraph "First paragraph.", ADFBlock.paragraph "Second paragraph.",
        ADFBlock.heading 2 "Acceptance Criteria", ADFBlock.bulletList ["1. a", "2. b", "3. c"]] :=
  ⟨by decide, rfl,
    (update_adf_structure
      (⟨"K-1", "orig", "rew", "First paragraph.\n\nSecond paragraph.",
        ["1. a", "2. b", "3. c"], "ctx"⟩ : RewrittenTicket)
      "First paragraph." "Second paragraph." "1. a" "2. b" "3. c" (by decide) rfl).1⟩

/-! ## Further string lemmas, for the well-formed-output parse theorem -/

/-- A string is non-empty iff its character list is. -/
theorem data_ne_nil_of_ne_empty {s : String} (h : s ≠ "") : s.data ≠ [] := by
  intro h2
  exact h (String.ext (by simpa using h2))

/-- Appending to a non-empty string is non-empty. -/
theorem append_ne_empty_left (a b : String) (ha : a.data ≠ []) : a ++ b ≠ "" := by
  intro h
  have h2 := congrArg String.data h
  rw [String.data_append] at h2
  exact ha (List.append_eq_nil.mp (by simpa using h2)).1

/-- A list always lead-matches itself extended by anything. -/
theorem leadMatch_self_append (m r : List Char) : leadMatch m (m ++ r) = true := by
  induction m with
  | nil => rfl
  | cons p ps ih => simpa [leadMatch] using ih

/-- A lead match is in particular an occurrence. -/
theorem occursInL_of_leadMatch (n h : List Char) (hl : leadMatch n h = true) :
    occursInL n h = true := by
  cases h with
  | nil => exact hl
  | cons c cs => simp [occursInL, hl]

/-- Unfolding equation of `occursInL` on a cons cell. -/
theorem occursInL_cons (n : List Char) (c : Char) (cs : List Char) :
    occursInL n (c :: cs) = (leadMatch n (c :: cs) || occursInL n cs) := rfl

/-- A string starting with `pre` contains `pre`. -/
theorem pyContains_prefix (hay pre : String) (h : ∃ r, hay.data = pre.data ++ r) :
    pyContains hay pre = true := by
  obtain ⟨r, hr⟩ := h
  unfold pyContains
  rw [hr]
  exact occursInL_of_leadMatch _ _ (leadMatch_self_append _ _)

/-- A lead match fails on differing heads. -/
theorem leadMatch_cons_ne (p c : Char) (ps cs : List Char) (h : p ≠ c) :
    leadMatch (p :: ps) (c :: cs) = false := by
  simp [leadMatch, h]

/-- Deleting a pattern that does not occur leaves the list unchanged,
whatever the fuel. -/
theorem dropOccAux_no_occ (pat : List Char) (fuel : Nat) (l : List Char)
    (h : occursInL pat l = false) : dropOccAux pat fuel l = l := by
  induction fuel generalizing l with
  | zero => rfl
  | succ fuel ih =>
    cases l with
    | nil => rfl
    | cons c cs =>
      rw [occursInL_cons, Bool.or_eq_false_iff] at h
      simp only [dropOccAux, h.1, Bool.false_eq_true, if_false]
      rw [ih cs h.2]

/-- Deleting a non-empty leading marker from `m ++ r` yields `r` when the
marker does not occur in `r` and does not lead-match `r`. -/
theorem dropOcc_marker_block (m r : List Char) (hm : m ≠ [])
    (hlm : leadMatch m r = false) (hocc : occursInL m r = false) :
    dropOccurrences m (m ++ r) = r := by
  cases m with
  | nil => exact absurd rfl hm
  | cons p ps =>
    unfold dropOccurrences
    simp only [List.cons_append, List.length_cons]
    have hself := leadMatch_self_append (p :: ps) r
    simp only [List.cons_append] at hself
    simp only [dropOccAux, hself, if_true]
    have hdrop : (ps ++ r).drop ((p :: ps).length - 1) = r := by
      simp only [List.length_cons, Nat.add_sub_cancel]
      exact List.drop_left ps r
    simp only [List.length_cons, Nat.add_sub_cancel] at hdrop ⊢
    rw [hdrop]
    exact dropOccAux_no_occ _ _ _ hocc

/-- If stripping fixes a list, so does left-stripping alone. -/
theorem lstrip_eq_self_of_strip (l : List Char) (h : stripL l = l) :
    l.dropWhile isPyWs = l := by
  have h1 : (l.dropWhile isPyWs).length ≤ l.length := (List.dropWhile_sublist _).length_le
  have h2 : (stripL l).length ≤ (l.dropWhile isPyWs).length := by
    unfold stripL rstripL lstripL
    calc (((l.dropWhile isPyWs).reverse.dropWhile isPyWs).reverse).length
        = ((l.dropWhile isPyWs).reverse.dropWhile isPyWs).length := List.length_reverse _
      _ ≤ (l.dropWhile isPyWs).reverse.length := (List.dropWhile_sublist _).length_le
      _ = (l.dropWhile isPyWs).length := List.length_reverse _
  have h3 := congrArg List.length h
  exact (List.dropWhile_sublist _).eq_of_length (by omega)

/-- If stripping fixes a list, so does right-stripping alone. -/
theorem rstrip_eq_self_of_strip (l : List Char) (h : stripL l = l) :
    l.reverse.dropWhile isPyWs = l.reverse := by
  have hl := lstrip_eq_self_of_strip l h
  have h2 : rstripL l = l := by
    unfold stripL lstripL at h
    rwa [hl] at h
  unfold rstripL at h2
  have h3 := congrArg List.reverse h2
  rwa [List.reverse_reverse] at h3

/-- If `dropWhile` fixes a cons cell, the predicate fails on its head. -/
theorem dropWhile_head_false (p : Char → Bool) (a : Char) (t : List Char)
    (h : (a :: t).dropWhile p = a :: t) : p a = false := by
  cases hpa : p a with
  | false => rfl
  | true =>
    rw [List.dropWhile_cons, if_pos hpa] at h
    have h2 := congrArg List.length h
    have h3 : (t.dropWhile p).length ≤ t.length := (List.dropWhile_sublist _).length_le
    simp only [List.length_cons] at h2
    omega

/-- Left-stripping does not touch a non-whitespace head. -/
theorem lstrip_cons_not_ws (c : Char) (l : List Char) (hc : isPyWs c = false) :
    lstripL (c :: l) = c :: l := by
  unfold lstripL
  rw [List.dropWhile_cons, if_neg (by simp [hc])]

/-- Right-stripping does not touch a block ending in an already
right-stripped non-empty suffix. -/
theorem rstrip_append_right (l r : List Char)
    (hr : r.reverse.dropWhile isPyWs = r.reverse) (hrne : r ≠ []) :
    rstripL (l ++ r) = l ++ r := by
  unfold rstripL
  rw [List.reverse_append]
  obtain ⟨a, t, hrev⟩ : ∃ a t, r.reverse = a :: t := by
    cases hx : r.reverse with
    | nil => exact absurd (by simpa using congrArg List.reverse hx) hrne
    | cons a t => exact ⟨a, t, rfl⟩
  have ha : isPyWs a = false := dropWhile_head_false _ a t (hrev ▸ hr)
  rw [hrev, List.cons_append, List.dropWhile_cons, if_neg (by simp [ha]),
    ← List.cons_append, ← hrev, ← List.reverse_append, List.reverse_reverse]

/-- Stripping fixes a block made of a marker starting with a
non-whitespace character followed by a stripped non-empty text. -/
theorem stripL_block (c : Char) (rest x : List Char) (hc : isPyWs c = false)
    (hx : x.reverse.dropWhile isPyWs = x.reverse) (hxne : x ≠ []) :
    stripL ((c :: rest) ++ x) = (c :: rest) ++ x := by
  unfold stripL
  rw [List.cons_append, show lstripL (c :: (rest ++ x)) = c :: (rest ++ x) from
    lstrip_cons_not_ws c _ hc, ← List.cons_append]
  exact rstrip_append_right (c :: rest) x hx hxne

/-- Stripping a newline followed by an already stripped text yields the
text. -/
theorem stripL_newline_cons (x : List Char) (hlx : x.dropWhile isPyWs = x)
    (hrx : x.reverse.dropWhile isPyWs = x.reverse) :
    stripL ('\n' :: x) = x := by
  unfold stripL lstripL
  rw [List.dropWhile_cons, if_pos (by decide), hlx]
  unfold rstripL
  rw [hrx, List.reverse_reverse]

/-- Processing a well-formed `USER STORY:` block: the cursor moves to the
user-story section and the captured text is the block's remainder. -/
theorem processSection_userstory (st : ParseState) (us : String) (h1 : us ≠ "")
    (h3 : pyStrip us = us) (h5 : pyContains us "USER STORY:" = false) :
    processSection st ("USER STORY:\n" ++ us) =
      { st with current_section := some Section.userStory, user_story := us } := by
  have husd : stripL us.data = us.data := congrArg String.data h3
  have hlx := lstrip_eq_self_of_strip _ husd
  have hrx := rstrip_eq_self_of_strip _ husd
  have hxne : us.data ≠ [] := data_ne_nil_of_ne_empty h1
  have hdata : ("USER STORY:\n" ++ us).data = "USER STORY:".data ++ ('\n' :: us.data) := by
    rw [String.data_append]
    rfl
  have hstrip : pyStrip ("USER STORY:\n" ++ us) = "USER STORY:\n" ++ us := by
    refine String.ext ?_
    show stripL ("USER STORY:\n" ++ us).data = ("USER STORY:\n" ++ us).data
    rw [String.data_append, show "USER STORY:\n".data = 'U' :: "SER STORY:\n".data from rfl]
    exact stripL_block 'U' _ us.data (by decide) hrx hxne
  have hne : ("USER STORY:\n" ++ us) ≠ "" := append_ne_empty_left _ _ (by decide)
  have hcont : pyContains ("USER STORY:\n" ++ us) "USER STORY:" = true :=
    pyContains_prefix _ _ ⟨'\n' :: us.data, hdata⟩
  have hremove : pyStrip (pyRemove ("USER STORY:\n" ++ us) "USER STORY:") = us := by
    refine String.ext ?_
    show stripL (dropOccurrences "USER STORY:".data ("USER STORY:\n" ++ us).data) = us.data
    rw [hdata, dropOcc_marker_block _ _ (by decide)
      (by rw [show "USER STORY:".data = 'U' :: "SER STORY:".data from rfl]
          exact leadMatch_cons_ne _ _ _ _ (by decide))
      (by rw [occursInL_cons]
          rw [show leadMatch "USER STORY:".data ('\n' :: us.data) = false from by
            rw [show "USER STORY:".data = 'U' :: "SER STORY:".data from rfl]
            exact leadMatch_cons_ne _ _ _ _ (by decide)]
          simpa [pyContains] using h5)]
    exact stripL_newline_cons us.data hlx hrx
  simp only [processSection]
  rw [hstrip, if_neg hne, if_pos hcont, hremove]

/-- Processing the concrete `ACCEPTANCE CRITERIA:` block holding the lines
`1. Foo` and `2. Bar`: both numbered lines are appended verbatim. -/
theorem processSection_criteria_foo_bar (st : ParseState) :
    processSection st "ACCEPTANCE CRITERIA:\n1. Foo\n2. Bar" =
      { st with current_section := some Section.acceptanceCriteria,
                acceptance_criteria := st.acceptance_criteria ++ ["1. Foo", "2. Bar"] } := rfl

/-- Processing a well-formed `TECHNICAL CONTEXT:` block: the cursor moves
to the technical-context section and the captured text is the block's
remainder. -/
theorem processSection_technical (st : ParseState) (tc : String) (h2 : tc ≠ "")
    (h4 : pyStrip tc = tc)
    (h6 : pyContains ("TECHNICAL CONTEXT:\n" ++ tc) "USER STORY:" = false)
    (h7 : pyContains ("TECHNICAL CONTEXT:\n" ++ tc) "ACCEPTANCE CRITERIA:" = false)
    (h8 : pyContains tc "TECHNICAL CONTEXT:" = false) :
    processSection st ("TECHNICAL CONTEXT:\n" ++ tc) =
      { st with current_section := some Section.technicalContext,
                technical_context := tc } := by
  have htcd : stripL tc.data = tc.data := congrArg String.data h4
  have hlx := lstrip_eq_self_of_strip _ htcd
  have hrx := rstrip_eq_self_of_strip _ htcd
  have hxne : tc.data ≠ [] := data_ne_nil_of_ne_empty h2
  have hdata : ("TECHNICAL CONTEXT:\n" ++ tc).data =
      "TECHNICAL CONTEXT:".data ++ ('\n' :: tc.data) := by
    rw [String.data_append]
    rfl
  have hstrip : pyStrip ("TECHNICAL CONTEXT:\n" ++ tc) = "TECHNICAL CONTEXT:\n" ++ tc := by
    refine String.ext ?_
    show stripL ("TECHNICAL CONTEXT:\n" ++ tc).data = ("TECHNICAL CONTEXT:\n" ++ tc).data
    rw [String.data_append,
      show "TECHNICAL CONTEXT:\n".data = 'T' :: "ECHNICAL CONTEXT:\n".data from rfl]
    exact stripL_block 'T' _ tc.data (by decide) hrx hxne
  have hne : ("TECHNICAL CONTEXT:\n" ++ tc) ≠ "" := append_ne_empty_left _ _ (by decide)
  have hcont : pyContains ("TECHNICAL CONTEXT:\n" ++ tc) "TECHNICAL CONTEXT:" = true :=
    pyContains_prefix _ _ ⟨'\n' :: tc.data, hdata⟩
  have hremove : pyStrip (pyRemove ("TECHNICAL CONTEXT:\n" ++ tc) "TECHNICAL CONTEXT:") = tc := by
    refine String.ext ?_
    show stripL (dropOccurrences "TECHNICAL CONTEXT:".data
      ("TECHNICAL CONTEXT:\n" ++ tc).data) = tc.data
    rw [hdata, dropOcc_marker_block _ _ (by decide)
      (by rw [show "TECHNICAL CONTEXT:".data = 'T' :: "ECHNICAL CONTEXT:".data from rfl]
          exact leadMatch_cons_ne _ _ _ _ (by decide))
      (by rw [occursInL_cons]
          rw [show leadMatch "TECHNICAL CONTEXT:".data ('\n' :: tc.data) = false from by
            rw [show "TECHNICAL CONTEXT:".data = 'T' :: "ECHNICAL CONTEXT:".data from rfl]
            exact leadMatch_cons_ne _ _ _ _ (by decide)]
          simpa [pyContains] using h8)]
    exact stripL_newline_cons tc.data hlx hrx
  simp only [processSection]
  rw [hstrip, if_neg hne, if_neg (by rw [h6]; exact Bool.false_ne_true),
    if_neg (by rw [h7]; exact Bool.false_ne_true), if_pos hcont, hremove]

/-- Claim C5: on a model output made of a `USER STORY:` block, an
`ACCEPTANCE CRITERIA:` block holding the lines `1. Foo` and `2. Bar`, and a
`TECHNICAL CONTEXT:` block, separated by blank lines (with the block texts
stripped, non-empty, and free of section markers), the parser returns the
user-story text, the criteria exactly `["Foo", "Bar"]` with the leading
number-dot prefixes stripped, and the technical-context text. -/
theorem parse_wellformed_sections (us tc t : String)
    (h1 : us ≠ "") (h2 : tc ≠ "")
    (h3 : pyStrip us = us) (h4 : pyStrip tc = tc)
    (h5 : pyContains us "USER STORY:" = false)
    (h6 : pyContains ("TECHNICAL CONTEXT:\n" ++ tc) "USER STORY:" = false)
    (h7 : pyContains ("TECHNICAL CONTEXT:\n" ++ tc) "ACCEPTANCE CRITERIA:" = false)
    (h8 : pyContains tc "TECHNICAL CONTEXT:" = false)
    (hsplit : pySplit t "\n\n" =
      ["USER STORY:\n" ++ us, "ACCEPTANCE CRITERIA:\n1. Foo\n2. Bar",
        "TECHNICAL CONTEXT:\n" ++ tc]) :
    _parse_ai_response t = ⟨us, ["Foo", "Bar"], tc⟩ := by
  have hps : parseState t =
      ⟨us, ["1. Foo", "2. Bar"], tc, some Section.technicalContext⟩ := by
    unfold parseState
    rw [hsplit]
    simp only [List.foldl]
    rw [processSection_userstory _ us h1 h3 h5, processSection_criteria_foo_bar,
      processSection_technical _ tc h2 h4 h6 h7 h8]
    rfl
  unfold _parse_ai_response
  rw [hps]
  dsimp only
  rw [if_neg h1, if_neg h2]
  rfl

set_option maxRecDepth 100000 in
/-- Witness for C5 on a concrete well-formed model output. -/
theorem parse_wellformed_sections_witness :
    pySplit "USER STORY:\nAs a developer, I want tests so that I ship safely.\n\nACCEPTANCE CRITERIA:\n1. Foo\n2. Bar\n\nTECHNICAL CONTEXT:\nParsing is brittle." "\n\n" =
      ["USER STORY:\n" ++ "As a developer, I want tests so that I ship safely.",
        "ACCEPTANCE CRITERIA:\n1. Foo\n2. Bar",
        "TECHNICAL CONTEXT:\n" ++ "Parsing is brittle."] ∧
    _parse_ai_response "USER STORY:\nAs a developer, I want tests so that I ship safely.\n\nACCEPTANCE CRITERIA:\n1. Foo\n2. Bar\n\nTECHNICAL CONTEXT:\nParsing is brittle." =
      ⟨"As a developer, I want tests so that I ship safely.", ["Foo", "Bar"],
        "Parsing is brittle."⟩ :=
  ⟨by decide,
    parse_wellformed_sections "As a developer, I want tests so that I ship safely."
      "Parsing is brittle."
      "USER STORY:\nAs a developer, I want tests so that I ship safely.\n\nACCEPTANCE CRITERIA:\n1. Foo\n2. Bar\n\nTECHNICAL CONTEXT:\nParsing is brittle."
      (by decide) (by decide) (by decide) (by decide) (by decide) (by decide) (by decide)
      (by decide) (by decide)⟩

end JiraRewriter
